import Mathlib

/-!
Shallow embedding of the stimpl evaluation core (src/stimpl/runtime.py):
the interpreter state (chained variable bindings) and the recursive
`evaluate` dispatch, together with theorems checking the specification's
claims about it.

Python values are modelled by the `Value` union below; Python floats are
modelled as rationals (the operations the evaluator applies to them are
exact field operations in every claim considered here).  Python's dynamic
behaviours that the evaluator relies on are modelled explicitly:
truthiness (`truthy`), numeric cross-kind equality and ordering where
`False == 0` and `True == 1` (`pyEq`, `pyLt`), value-level `and` / `or`
(`pyAnd`, `pyOr`), and floor division `//` on integers (`Int.fdiv`).

Evaluation in the source can loop forever (`While`); the embedding
therefore takes a fuel parameter and returns `Outcome.timeout` when the
fuel runs out, which corresponds to no observable behaviour of the
source.  `Outcome.stuck` marks a host-level (Python) `TypeError` that the
interpreter itself would not raise; it is unreachable from well-tagged
values and appears only so that the payload-extraction helpers are total.
-/

/-- Modelled from the spec (the `stimpl.types` module is not part of the
given sources): the closed set of five nominal type tags, compared by tag
identity only. -/
inductive TypeTag where
  | Unit
  | Integer
  | FloatingPoint
  | String
  | Boolean
deriving DecidableEq

/-- Runtime payloads: Python `None`, `int`, `float` (modelled as `ℚ`),
`str` and `bool`. -/
inductive Value where
  | none : Value
  | int : Int → Value
  | float : ℚ → Value
  | str : String → Value
  | bool : Bool → Value
deriving DecidableEq

/-- Modelled from the spec (the `stimpl.expression` module is not part of
the given sources): the closed AST variant set dispatched on by
`evaluate`.  `Ren` is the unit literal; `Assign` carries the name of its
`Variable` node (the interpreter only ever reads
`variable.variable_name`). -/
inductive Expr where
  | Ren : Expr
  | IntLiteral : Int → Expr
  | FloatingPointLiteral : ℚ → Expr
  | StringLiteral : String → Expr
  | BooleanLiteral : Bool → Expr
  | Print : Expr → Expr
  | Sequence : List Expr → Expr
  | Program : List Expr → Expr
  | Variable : String → Expr
  | Assign : String → Expr → Expr
  | Add : Expr → Expr → Expr
  | Subtract : Expr → Expr → Expr
  | Multiply : Expr → Expr → Expr
  | Divide : Expr → Expr → Expr
  | And : Expr → Expr → Expr
  | Or : Expr → Expr → Expr
  | Not : Expr → Expr
  | If : Expr → Expr → Expr → Expr
  | Lt : Expr → Expr → Expr
  | Lte : Expr → Expr → Expr
  | Gt : Expr → Expr → Expr
  | Gte : Expr → Expr → Expr
  | Eq : Expr → Expr → Expr
  | Ne : Expr → Expr → Expr
  | While : Expr → Expr → Expr

/-- Modelled from the spec (the `stimpl.errors` module is not part of the
given sources): the three discriminated failure kinds raised by
`evaluate`. -/
inductive InterpError where
  | SyntaxKind (msg : String)
  | TypeKind (msg : String)
  | MathKind (msg : String)
deriving DecidableEq

/-- The chained interpreter state of runtime.py: `EmptyState` is the
terminator, `State.set_value` prepends a binding (class `State`,
lines 12-45). -/
inductive State where
  | empty : State
  | node (name : String) (value : Value) (ty : TypeTag) (next : State)
deriving DecidableEq

/-- `State.get_value` / `EmptyState.get_value`: walk the chain from the
most recent binding toward the terminator; `Option.none` models the
Python `None` returned by the empty state. -/
def State.get_value : State → String → Option (Value × TypeTag)
  | .empty, _ => Option.none
  | .node n v t next, name =>
      if name = n then some (v, t) else next.get_value name

/-- `State.set_value`: return a new head node whose tail is `self`. -/
def State.set_value (s : State) (name : String) (v : Value) (t : TypeTag) : State :=
  .node name v t s

/-- Python truthiness of the modelled payloads (used by `while`, `if`,
`and`, `or`, `not` in the source). -/
def truthy : Value → Bool
  | .none => false
  | .int n => decide (n ≠ 0)
  | .float q => decide (q ≠ 0)
  | .str s => decide (s ≠ "")
  | .bool b => b

/-- Numeric view of a payload: Python treats `bool` as a number
(`False == 0`, `True == 1`); `int` and `float` coerce into one numeric
tower. -/
def asNum : Value → Option ℚ
  | .int n => some (n : ℚ)
  | .float q => some q
  | .bool b => some (if b then 1 else 0)
  | _ => Option.none

/-- Integer view of a payload: `int` itself, or `bool` counted as 0/1
(Python arithmetic between ints and bools stays an `int`). -/
def asInt : Value → Option Int
  | .int n => some n
  | .bool b => some (if b then 1 else 0)
  | _ => Option.none

/-- Python `==` on the modelled payloads: numeric kinds compare by value
across kinds, strings compare as strings, `None` equals only itself, and
cross-kind comparisons otherwise yield `False`. -/
def pyEq (v w : Value) : Bool :=
  match asNum v, asNum w with
  | some a, some b => decide (a = b)
  | _, _ =>
    match v, w with
    | .str s, .str t => decide (s = t)
    | .none, .none => true
    | _, _ => false

/-- Python `<` on the payload kinds the evaluator compares (numeric kinds
and strings; other combinations are unreachable behind the evaluator's
tag checks). -/
def pyLt (v w : Value) : Bool :=
  match asNum v, asNum w with
  | some a, some b => decide (a < b)
  | _, _ =>
    match v, w with
    | .str s, .str t => decide (s < t)
    | _, _ => false

/-- Python `<=`, which on numbers and strings agrees with `< or ==`. -/
def pyLe (v w : Value) : Bool :=
  pyLt v w || pyEq v w

/-- Python `x and y`: returns `x` when `x` is falsy, else `y`. -/
def pyAnd (v w : Value) : Value :=
  if truthy v then w else v

/-- Python `x or y`: returns `x` when `x` is truthy, else `w`. -/
def pyOr (v w : Value) : Value :=
  if truthy v then v else w

/-- Python `+` on the kinds reachable behind the `Add` tag guard:
string concatenation, float-contaminated numeric addition, and integer
addition; `Option.none` marks a host-level `TypeError`. -/
def pyAdd (v w : Value) : Option Value :=
  match v, w with
  | .str a, .str b => some (.str (a ++ b))
  | .float a, _ => (asNum w).map fun b => .float (a + b)
  | _, .float b => (asNum v).map fun a => .float (a + b)
  | _, _ =>
    match asInt v, asInt w with
    | some a, some b => some (.int (a + b))
    | _, _ => Option.none

/-- Python `-` on numeric payloads. -/
def pySub (v w : Value) : Option Value :=
  match v, w with
  | .float a, _ => (asNum w).map fun b => .float (a - b)
  | _, .float b => (asNum v).map fun a => .float (a - b)
  | _, _ =>
    match asInt v, asInt w with
    | some a, some b => some (.int (a - b))
    | _, _ => Option.none

/-- Python `*` on numeric payloads. -/
def pyMul (v w : Value) : Option Value :=
  match v, w with
  | .float a, _ => (asNum w).map fun b => .float (a * b)
  | _, .float b => (asNum v).map fun a => .float (a * b)
  | _, _ =>
    match asInt v, asInt w with
    | some a, some b => some (.int (a * b))
    | _, _ => Option.none

/-- Python `/` (true division) on numeric payloads: always produces a
float. -/
def pyTrueDiv (v w : Value) : Option Value :=
  match asNum v, asNum w with
  | some a, some b => some (.float (a / b))
  | _, _ => Option.none

/-- Python `//` (floor division) on numeric payloads: `int // int` is
`Int.fdiv` (rounding toward negative infinity); a float operand makes the
result a floored float. -/
def pyFloorDiv (v w : Value) : Option Value :=
  match v, w with
  | .float _, _ | _, .float _ =>
    match asNum v, asNum w with
    | some a, some b => some (.float (⌊a / b⌋ : ℤ))
    | _, _ => Option.none
  | _, _ =>
    match asInt v, asInt w with
    | some a, some b => some (.int (Int.fdiv a b))
    | _, _ => Option.none

/-- The outcome of one fuelled evaluation: a result triple, a raised
interpreter error, fuel exhaustion, or an unreachable host-level fault. -/
inductive Outcome where
  | ok (value : Value) (ty : TypeTag) (state : State)
  | err (e : InterpError)
  | timeout
  | stuck
deriving DecidableEq

/-- Exception propagation: continue on a result triple, pass every other
outcome through unchanged (Python exceptions unwind automatically). -/
def Outcome.andThen (o : Outcome) (f : Value → TypeTag → State → Outcome) : Outcome :=
  match o with
  | .ok v t s => f v t s
  | .err e => .err e
  | .timeout => .timeout
  | .stuck => .stuck


/-- The `Assign` case after the value expression has been evaluated
(runtime.py lines 103-117): look up the prior binding of the name in the
threaded state; a prior binding of a different type is a type error,
otherwise a new shadowing binding is prepended. -/
def assignOp (x : String) (v : Value) (t : TypeTag) (s1 : State) : Outcome :=
  match s1.get_value x with
  | some (_, pt) =>
      if t ≠ pt then .err (.TypeKind "Mismatched types for Assignment")
      else .ok v t (s1.set_value x v t)
  | Option.none => .ok v t (s1.set_value x v t)

/-- The `Add` case after both operands have been evaluated (runtime.py
lines 119-134). -/
def addOp (lv : Value) (lt : TypeTag) (rv : Value) (rt : TypeTag) (s : State) : Outcome :=
  if lt ≠ rt then .err (.TypeKind "Mismatched types for Add")
  else
    match lt with
    | .Integer | .String | .FloatingPoint =>
        match pyAdd lv rv with
        | some v => .ok v lt s
        | Option.none => .stuck
    | _ => .err (.TypeKind "Cannot add values of this type")

/-- The `Subtract` case after both operands have been evaluated
(runtime.py lines 136-156). -/
def subtractOp (lv : Value) (lt : TypeTag) (rv : Value) (rt : TypeTag) (s : State) : Outcome :=
  if lt ≠ rt then .err (.TypeKind "Mismatched types for Subtract")
  else
    match lt with
    | .Integer | .FloatingPoint =>
        match pySub lv rv with
        | some v => .ok v lt s
        | Option.none => .stuck
    | _ => .err (.TypeKind "Cannot subtract values of this type")

/-- The `Multiply` case after both operands have been evaluated
(runtime.py lines 159-179). -/
def multiplyOp (lv : Value) (lt : TypeTag) (rv : Value) (rt : TypeTag) (s : State) : Outcome :=
  if lt ≠ rt then .err (.TypeKind "Mismatched types for Multiply")
  else
    match lt with
    | .Integer | .FloatingPoint =>
        match pyMul lv rv with
        | some v => .ok v lt s
        | Option.none => .stuck
    | _ => .err (.TypeKind "Cannot multiply values of this type")

/-- The `Divide` case after both operands have been evaluated
(runtime.py lines 181-206): the divisor-zero check on the right value
comes first, before the type-equality check. -/
def divideOp (lv : Value) (lt : TypeTag) (rv : Value) (rt : TypeTag) (s : State) : Outcome :=
  if pyEq rv (.int 0) then .err (.MathKind "Division by Zero Error")
  else if lt ≠ rt then .err (.TypeKind "Mismatched types for Divide")
  else
    match lt with
    | .FloatingPoint =>
        match pyTrueDiv lv rv with
        | some v => .ok v lt s
        | Option.none => .stuck
    | .Integer =>
        match pyFloorDiv lv rv with
        | some v => .ok v lt s
        | Option.none => .stuck
    | _ => .err (.TypeKind "Cannot divide values of this type")

/-- The `And` case after both operands have been evaluated (runtime.py
lines 208-222). -/
def andOp (lv : Value) (lt : TypeTag) (rv : Value) (rt : TypeTag) (s : State) : Outcome :=
  if lt ≠ rt then .err (.TypeKind "Mismatched types for And")
  else
    match lt with
    | .Boolean => .ok (pyAnd lv rv) lt s
    | _ => .err (.TypeKind "Cannot perform logical and on non-boolean operands.")

/-- The `Or` case after both operands have been evaluated (runtime.py
lines 224-241); the source reuses the "logical and" wording in its error
message. -/
def orOp (lv : Value) (lt : TypeTag) (rv : Value) (rt : TypeTag) (s : State) : Outcome :=
  if lt ≠ rt then .err (.TypeKind "Mismatched types for Or")
  else
    match lt with
    | .Boolean => .ok (pyOr lv rv) lt s
    | _ => .err (.TypeKind "Cannot perform logical and on non-boolean operands.")

/-- The `Lt` case after both operands have been evaluated (runtime.py
lines 274-293): `Unit` operands always compare to `False`. -/
def ltOp (lv : Value) (lt : TypeTag) (rv : Value) (rt : TypeTag) (s : State) : Outcome :=
  if lt ≠ rt then .err (.TypeKind "Mismatched types for Lt")
  else
    match lt with
    | .Integer | .Boolean | .String | .FloatingPoint =>
        .ok (.bool (pyLt lv rv)) .Boolean s
    | .Unit => .ok (.bool false) .Boolean s

/-- The `Lte` case after both operands have been evaluated (runtime.py
lines 295-315): `Unit` operands always compare to `True`. -/
def lteOp (lv : Value) (lt : TypeTag) (rv : Value) (rt : TypeTag) (s : State) : Outcome :=
  if lt ≠ rt then .err (.TypeKind "Mismatched types for Lte")
  else
    match lt with
    | .Integer | .Boolean | .String | .FloatingPoint =>
        .ok (.bool (pyLe lv rv)) .Boolean s
    | .Unit => .ok (.bool true) .Boolean s

/-- The `Gt` case after both operands have been evaluated (runtime.py
lines 318-339): `Unit` operands always compare to `False`. -/
def gtOp (lv : Value) (lt : TypeTag) (rv : Value) (rt : TypeTag) (s : State) : Outcome :=
  if lt ≠ rt then .err (.TypeKind "Mismatched types for Gt")
  else
    match lt with
    | .Integer | .Boolean | .String | .FloatingPoint =>
        .ok (.bool (pyLt rv lv)) .Boolean s
    | .Unit => .ok (.bool false) .Boolean s

/-- The `Gte` case after both operands have been evaluated (runtime.py
lines 341-361): `Unit` operands always compare to `True`. -/
def gteOp (lv : Value) (lt : TypeTag) (rv : Value) (rt : TypeTag) (s : State) : Outcome :=
  if lt ≠ rt then .err (.TypeKind "Mismatched types for Gte")
  else
    match lt with
    | .Integer | .Boolean | .String | .FloatingPoint =>
        .ok (.bool (pyLe rv lv)) .Boolean s
    | .Unit => .ok (.bool true) .Boolean s

/-- The `Eq` case after both operands have been evaluated (runtime.py
lines 363-376): equal `Unit` tags short-circuit to `True`; the source's
mismatch message names `Gte` (copy-paste in the source). -/
def eqOp (lv : Value) (lt : TypeTag) (rv : Value) (rt : TypeTag) (s : State) : Outcome :=
  if lt ≠ rt then .err (.TypeKind "Mismatched types for Gte")
  else if lt = .Unit then .ok (.bool true) .Boolean s
  else .ok (.bool (pyEq lv rv)) .Boolean s

/-- The `Ne` case after both operands have been evaluated (runtime.py
lines 378-391): equal `Unit` tags short-circuit to `False`. -/
def neOp (lv : Value) (lt : TypeTag) (rv : Value) (rt : TypeTag) (s : State) : Outcome :=
  if lt ≠ rt then .err (.TypeKind "Mismatched types for Gte")
  else if lt = .Unit then .ok (.bool false) .Boolean s
  else .ok (.bool (!pyEq lv rv)) .Boolean s

/-- The `for expr in exprs` loop of the `Sequence`/`Program` case
(runtime.py lines 82-92): thread the state and replace the running
`(value, type)` with each sub-result; the accumulator is returned when
the list is exhausted. -/
def evalSeqAux (ev : Expr → State → Outcome) :
    List Expr → Value → TypeTag → State → Outcome
  | [], v, t, s => .ok v t s
  | e :: rest, _, _, s =>
      (ev e s).andThen fun v t s2 => evalSeqAux ev rest v t s2

/-- The `while(if_cond_value)` loop of the `While` case (runtime.py
lines 402-406): while the last condition value is truthy, evaluate the
body, re-evaluate the condition (neither re-evaluation is type-checked),
and continue on the new condition value; on a falsy condition value
return `(False, Boolean)` with the threaded state.  The `Nat` argument
bounds the number of iterations (fuel). -/
def whileLoopAux (ev : Expr → State → Outcome) (cond body : Expr) :
    Nat → Value → State → Outcome
  | n, cv, s =>
    if truthy cv then
      match n with
      | 0 => .timeout
      | m + 1 =>
          (ev body s).andThen fun _ _ s2 =>
          (ev cond s2).andThen fun cv2 _ s3 =>
          whileLoopAux ev cond body m cv2 s3
    else .ok (.bool false) .Boolean s

/-- The `evaluate` dispatch of runtime.py (lines 53-410), with a fuel
parameter decremented on every recursive call.  The `Print` side effect
is dropped; its result triple is returned unchanged.  The source's
unreachable default match arms (behind the closed tag and node sets) are
omitted where the Lean match is already exhaustive. -/
def evaluate : Nat → Expr → State → Outcome
  | 0, _, _ => .timeout
  | fuel + 1, expr, state =>
    match expr with
    | .Ren => .ok .none .Unit state
    | .IntLiteral l => .ok (.int l) .Integer state
    | .FloatingPointLiteral l => .ok (.float l) .FloatingPoint state
    | .StringLiteral l => .ok (.str l) .String state
    | .BooleanLiteral l => .ok (.bool l) .Boolean state
    | .Print e => evaluate fuel e state
    | .Sequence exprs | .Program exprs =>
        evalSeqAux (fun e2 s2 => evaluate fuel e2 s2) exprs .none .Unit state
    | .Variable x =>
        match state.get_value x with
        | some (v, t) => .ok v t state
        | Option.none =>
            .err (.SyntaxKind ("Cannot read from " ++ x ++ " before assignment."))
    | .Assign x e =>
        (evaluate fuel e state).andThen fun v t s1 => assignOp x v t s1
    | .Add l r =>
        (evaluate fuel l state).andThen fun lv lt s1 =>
        (evaluate fuel r s1).andThen fun rv rt s2 => addOp lv lt rv rt s2
    | .Subtract l r =>
        (evaluate fuel l state).andThen fun lv lt s1 =>
        (evaluate fuel r s1).andThen fun rv rt s2 => subtractOp lv lt rv rt s2
    | .Multiply l r =>
        (evaluate fuel l state).andThen fun lv lt s1 =>
        (evaluate fuel r s1).andThen fun rv rt s2 => multiplyOp lv lt rv rt s2
    | .Divide l r =>
        (evaluate fuel l state).andThen fun lv lt s1 =>
        (evaluate fuel r s1).andThen fun rv rt s2 => divideOp lv lt rv rt s2
    | .And l r =>
        (evaluate fuel l state).andThen fun lv lt s1 =>
        (evaluate fuel r s1).andThen fun rv rt s2 => andOp lv lt rv rt s2
    | .Or l r =>
        (evaluate fuel l state).andThen fun lv lt s1 =>
        (evaluate fuel r s1).andThen fun rv rt s2 => orOp lv lt rv rt s2
    | .Not e =>
        (evaluate fuel e state).andThen fun v t s1 =>
        if t = .Boolean then .ok (.bool (!truthy v)) .Boolean s1
        else .err (.TypeKind "Cannot perform Not operator on this type")
    | .If c tbr fbr =>
        (evaluate fuel c state).andThen fun cv ct s1 =>
        if ct ≠ .Boolean then
          .err (.TypeKind "Cannot evaluate condition of non-Boolean type")
        else if truthy cv then evaluate fuel tbr s1
        else evaluate fuel fbr s1
    | .Lt l r =>
        (evaluate fuel l state).andThen fun lv lt s1 =>
        (evaluate fuel r s1).andThen fun rv rt s2 => ltOp lv lt rv rt s2
    | .Lte l r =>
        (evaluate fuel l state).andThen fun lv lt s1 =>
        (evaluate fuel r s1).andThen fun rv rt s2 => lteOp lv lt rv rt s2
    | .Gt l r =>
        (evaluate fuel l state).andThen fun lv lt s1 =>
        (evaluate fuel r s1).andThen fun rv rt s2 => gtOp lv lt rv rt s2
    | .Gte l r =>
        (evaluate fuel l state).andThen fun lv lt s1 =>
        (evaluate fuel r s1).andThen fun rv rt s2 => gteOp lv lt rv rt s2
    | .Eq l r =>
        (evaluate fuel l state).andThen fun lv lt s1 =>
        (evaluate fuel r s1).andThen fun rv rt s2 => eqOp lv lt rv rt s2
    | .Ne l r =>
        (evaluate fuel l state).andThen fun lv lt s1 =>
        (evaluate fuel r s1).andThen fun rv rt s2 => neOp lv lt rv rt s2
    | .While cond body =>
        (evaluate fuel cond state).andThen fun cv ct s1 =>
        if ct ≠ .Boolean then
          .err (.TypeKind "Cannot evaluate condition of non-Boolean type")
        else whileLoopAux (fun e2 s2 => evaluate fuel e2 s2) cond body fuel cv s1

/-- `run_stimpl` (runtime.py lines 413-422): evaluate a program from the
empty state (the debug printing is dropped). -/
def run_stimpl (fuel : Nat) (program : Expr) : Outcome :=
  evaluate fuel program .empty

/-! ### Step equations for `evaluate` at positive fuel.

Each is a definitional unfolding of one dispatch arm; they let proofs
rewrite a single node without unfolding the sub-evaluations. -/

theorem evaluate_zero (e : Expr) (s : State) : evaluate 0 e s = .timeout := rfl

theorem evaluate_ren (fuel : Nat) (s : State) :
    evaluate (fuel + 1) .Ren s = .ok .none .Unit s := rfl

theorem evaluate_int (fuel : Nat) (l : Int) (s : State) :
    evaluate (fuel + 1) (.IntLiteral l) s = .ok (.int l) .Integer s := rfl

theorem evaluate_float (fuel : Nat) (l : ℚ) (s : State) :
    evaluate (fuel + 1) (.FloatingPointLiteral l) s = .ok (.float l) .FloatingPoint s := rfl

theorem evaluate_string (fuel : Nat) (l : String) (s : State) :
    evaluate (fuel + 1) (.StringLiteral l) s = .ok (.str l) .String s := rfl

theorem evaluate_boolean (fuel : Nat) (l : Bool) (s : State) :
    evaluate (fuel + 1) (.BooleanLiteral l) s = .ok (.bool l) .Boolean s := rfl

theorem evaluate_sequence (fuel : Nat) (exprs : List Expr) (s : State) :
    evaluate (fuel + 1) (.Sequence exprs) s
      = evalSeqAux (fun e2 s2 => evaluate fuel e2 s2) exprs .none .Unit s := rfl

theorem evaluate_program (fuel : Nat) (exprs : List Expr) (s : State) :
    evaluate (fuel + 1) (.Program exprs) s
      = evalSeqAux (fun e2 s2 => evaluate fuel e2 s2) exprs .none .Unit s := rfl

theorem evaluate_variable (fuel : Nat) (x : String) (s : State) :
    evaluate (fuel + 1) (.Variable x) s
      = match s.get_value x with
        | some (v, t) => .ok v t s
        | Option.none =>
            .err (.SyntaxKind ("Cannot read from " ++ x ++ " before assignment.")) := rfl

theorem evaluate_assign (fuel : Nat) (x : String) (e : Expr) (s : State) :
    evaluate (fuel + 1) (.Assign x e) s
      = (evaluate fuel e s).andThen fun v t s1 => assignOp x v t s1 := rfl

theorem evaluate_divide (fuel : Nat) (l r : Expr) (s : State) :
    evaluate (fuel + 1) (.Divide l r) s
      = (evaluate fuel l s).andThen fun lv lt s1 =>
        (evaluate fuel r s1).andThen fun rv rt s2 => divideOp lv lt rv rt s2 := rfl

theorem evaluate_and (fuel : Nat) (l r : Expr) (s : State) :
    evaluate (fuel + 1) (.And l r) s
      = (evaluate fuel l s).andThen fun lv lt s1 =>
        (evaluate fuel r s1).andThen fun rv rt s2 => andOp lv lt rv rt s2 := rfl

theorem evaluate_or (fuel : Nat) (l r : Expr) (s : State) :
    evaluate (fuel + 1) (.Or l r) s
      = (evaluate fuel l s).andThen fun lv lt s1 =>
        (evaluate fuel r s1).andThen fun rv rt s2 => orOp lv lt rv rt s2 := rfl

theorem evaluate_lt (fuel : Nat) (l r : Expr) (s : State) :
    evaluate (fuel + 1) (.Lt l r) s
      = (evaluate fuel l s).andThen fun lv lt s1 =>
        (evaluate fuel r s1).andThen fun rv rt s2 => ltOp lv lt rv rt s2 := rfl

theorem evaluate_lte (fuel : Nat) (l r : Expr) (s : State) :
    evaluate (fuel + 1) (.Lte l r) s
      = (evaluate fuel l s).andThen fun lv lt s1 =>
        (evaluate fuel r s1).andThen fun rv rt s2 => lteOp lv lt rv rt s2 := rfl

theorem evaluate_gt (fuel : Nat) (l r : Expr) (s : State) :
    evaluate (fuel + 1) (.Gt l r) s
      = (evaluate fuel l s).andThen fun lv lt s1 =>
        (evaluate fuel r s1).andThen fun rv rt s2 => gtOp lv lt rv rt s2 := rfl

theorem evaluate_gte (fuel : Nat) (l r : Expr) (s : State) :
    evaluate (fuel + 1) (.Gte l r) s
      = (evaluate fuel l s).andThen fun lv lt s1 =>
        (evaluate fuel r s1).andThen fun rv rt s2 => gteOp lv lt rv rt s2 := rfl

theorem evaluate_eq (fuel : Nat) (l r : Expr) (s : State) :
    evaluate (fuel + 1) (.Eq l r) s
      = (evaluate fuel l s).andThen fun lv lt s1 =>
        (evaluate fuel r s1).andThen fun rv rt s2 => eqOp lv lt rv rt s2 := rfl

theorem evaluate_ne (fuel : Nat) (l r : Expr) (s : State) :
    evaluate (fuel + 1) (.Ne l r) s
      = (evaluate fuel l s).andThen fun lv lt s1 =>
        (evaluate fuel r s1).andThen fun rv rt s2 => neOp lv lt rv rt s2 := rfl

theorem evaluate_while (fuel : Nat) (cond body : Expr) (s : State) :
    evaluate (fuel + 1) (.While cond body) s
      = (evaluate fuel cond s).andThen fun cv ct s1 =>
        if ct ≠ .Boolean then
          .err (.TypeKind "Cannot evaluate condition of non-Boolean type")
        else whileLoopAux (fun e2 s2 => evaluate fuel e2 s2) cond body fuel cv s1 := rfl

/-! ### Helper lemmas about outcome threading -/

theorem Outcome.andThen_ok (v : Value) (t : TypeTag) (s : State)
    (f : Value → TypeTag → State → Outcome) :
    (Outcome.ok v t s).andThen f = f v t s := rfl

theorem Outcome.andThen_eq_ok {o : Outcome} {f : Value → TypeTag → State → Outcome}
    {v : Value} {t : TypeTag} {s : State} (h : o.andThen f = .ok v t s) :
    ∃ v1 t1 s1, o = .ok v1 t1 s1 ∧ f v1 t1 s1 = .ok v t s := by
  cases o with
  | ok v1 t1 s1 => exact ⟨v1, t1, s1, rfl, h⟩
  | err e => exact absurd h (by simp [Outcome.andThen])
  | timeout => exact absurd h (by simp [Outcome.andThen])
  | stuck => exact absurd h (by simp [Outcome.andThen])

/-- Any result triple produced by the while-loop helper carries the value
`False` and the tag `Boolean`: the loop only ever returns through its
falsy-condition exit. -/
theorem whileLoopAux_ok (ev : Expr → State → Outcome) (cond body : Expr) :
    ∀ (n : Nat) (cv : Value) (s : State) (v : Value) (t : TypeTag) (s2 : State),
      whileLoopAux ev cond body n cv s = .ok v t s2 →
      v = .bool false ∧ t = .Boolean := by
  intro n
  induction n with
  | zero =>
    intro cv s v t s2 h
    simp only [whileLoopAux] at h
    split at h
    · exact absurd h (by simp)
    · cases h; exact ⟨rfl, rfl⟩
  | succ m ih =>
    intro cv s v t s2 h
    simp only [whileLoopAux] at h
    split at h
    · obtain ⟨vb, tb, sb, hb, h⟩ := Outcome.andThen_eq_ok h
      obtain ⟨cv2, ct2, sc, hc, h⟩ := Outcome.andThen_eq_ok h
      exact ih cv2 sc v t s2 h
    · cases h; exact ⟨rfl, rfl⟩

/-! ### Claims -/

/-- C1: every `While(cond, body)` evaluation that terminates normally
yields the value `False` with the tag `Boolean` (together with the
threaded final state), regardless of the number of iterations and of
what the body produced last. -/
theorem while_normal_exit_false_boolean (fuel : Nat) (cond body : Expr)
    (s s2 : State) (v : Value) (t : TypeTag)
    (h : evaluate fuel (.While cond body) s = .ok v t s2) :
    v = .bool false ∧ t = .Boolean := by
  cases fuel with
  | zero => exact absurd h (by simp [evaluate_zero])
  | succ g =>
    rw [evaluate_while] at h
    obtain ⟨cv, ct, s1, hc, h⟩ := Outcome.andThen_eq_ok h
    split at h
    · exact absurd h (by simp)
    · exact whileLoopAux_ok _ cond body g cv s1 v t s2 h

/-- C1 witness: a two-iteration loop whose body last produced
`(2, Integer)` still exits with `(False, Boolean)`. -/
theorem while_normal_exit_false_boolean_witness :
    (evaluate 11
        (.While (.Lt (.Variable "i") (.IntLiteral 2))
          (.Assign "i" (.Add (.Variable "i") (.IntLiteral 1))))
        (.node "i" (.int 0) .Integer .empty)
      = .ok (.bool false) .Boolean
          (.node "i" (.int 2) .Integer
            (.node "i" (.int 1) .Integer (.node "i" (.int 0) .Integer .empty))))
    ∧ (Value.bool false = .bool false ∧ TypeTag.Boolean = .Boolean) :=
  ⟨by decide,
   while_normal_exit_false_boolean 11
     (.Lt (.Variable "i") (.IntLiteral 2))
     (.Assign "i" (.Add (.Variable "i") (.IntLiteral 1)))
     (.node "i" (.int 0) .Integer .empty)
     (.node "i" (.int 2) .Integer
       (.node "i" (.int 1) .Integer (.node "i" (.int 0) .Integer .empty)))
     (.bool false) .Boolean (by decide)⟩

/-- C2: `Divide` evaluates both operands and then raises the math
(division-by-zero) error whenever the right operand's value compares
equal to numeric zero, before any type check — even for mismatched or
non-numeric operand types; in particular
`Divide(IntLiteral a, IntLiteral 0)` raises it for every integer `a`. -/
theorem divide_zero_check_precedes_type_check :
    (∀ (fuel : Nat) (l r : Expr) (s s1 s2 : State) (v1 v2 : Value) (t1 t2 : TypeTag),
      evaluate fuel l s = .ok v1 t1 s1 →
      evaluate fuel r s1 = .ok v2 t2 s2 →
      pyEq v2 (.int 0) = true →
      evaluate (fuel + 1) (.Divide l r) s = .err (.MathKind "Division by Zero Error"))
    ∧ (∀ (g : Nat) (a : Int) (s : State),
      evaluate (g + 2) (.Divide (.IntLiteral a) (.IntLiteral 0)) s
        = .err (.MathKind "Division by Zero Error")) := by
  constructor
  · intro fuel l r s s1 s2 v1 v2 t1 t2 hl hr hz
    simp only [evaluate_divide, hl, Outcome.andThen_ok, hr]
    simp only [divideOp, hz, if_true]
  · intro g a s
    simp only [evaluate_divide, evaluate_int, Outcome.andThen_ok]
    rfl

/-- C2 witness: mismatched, non-numeric left operand — the zero divisor
still raises the math error, not a type error. -/
theorem divide_zero_check_precedes_type_check_witness :
    (evaluate 1 (.StringLiteral "a") .empty = .ok (.str "a") .String .empty)
    ∧ (evaluate 1 (.IntLiteral 0) .empty = .ok (.int 0) .Integer .empty)
    ∧ (pyEq (.int 0) (.int 0) = true)
    ∧ (evaluate 2 (.Divide (.StringLiteral "a") (.IntLiteral 0)) .empty
        = .err (.MathKind "Division by Zero Error")) :=
  ⟨rfl, rfl, by decide,
   divide_zero_check_precedes_type_check.1 1 (.StringLiteral "a") (.IntLiteral 0)
     .empty .empty .empty (.str "a") (.int 0) .String .Integer rfl rfl (by decide)⟩

/-- C10: because the divisor-zero check compares the payload with the
number 0 regardless of the type tag, and Python's `False` compares equal
to 0, `Divide(e, BooleanLiteral(false))` raises the math error — not a
type error — for every left operand `e` that evaluates without error. -/
theorem divide_by_boolean_false_math_error (fuel : Nat) (e : Expr)
    (s s1 : State) (v : Value) (t : TypeTag)
    (h : evaluate fuel e s = .ok v t s1) :
    evaluate (fuel + 1) (.Divide e (.BooleanLiteral false)) s
      = .err (.MathKind "Division by Zero Error") := by
  cases fuel with
  | zero => exact absurd h (by simp [evaluate_zero])
  | succ g =>
    simp only [evaluate_divide, h, Outcome.andThen_ok, evaluate_boolean]
    rfl

/-- C10 witness: an integer left operand divided by `False`. -/
theorem divide_by_boolean_false_math_error_witness :
    (evaluate 1 (.IntLiteral 7) .empty = .ok (.int 7) .Integer .empty)
    ∧ (evaluate 2 (.Divide (.IntLiteral 7) (.BooleanLiteral false)) .empty
        = .err (.MathKind "Division by Zero Error")) :=
  ⟨rfl, divide_by_boolean_false_math_error 1 (.IntLiteral 7) .empty .empty
    (.int 7) .Integer rfl⟩

/-! ### Comparison operators: result tag is always Boolean -/

theorem andThen2_ty {o1 : Outcome} {ev2 : State → Outcome}
    {opf : Value → TypeTag → Value → TypeTag → State → Outcome}
    (hop : ∀ lv lt rv rt σ v t σ2, opf lv lt rv rt σ = .ok v t σ2 → t = .Boolean)
    {v : Value} {t : TypeTag} {sf : State}
    (h : (o1.andThen fun lv lt s1 =>
          (ev2 s1).andThen fun rv rt s2 => opf lv lt rv rt s2) = .ok v t sf) :
    t = .Boolean := by
  obtain ⟨lv, lt, s1, h1, h⟩ := Outcome.andThen_eq_ok h
  obtain ⟨rv, rt, s2, h2, h⟩ := Outcome.andThen_eq_ok h
  exact hop lv lt rv rt s2 v t sf h

theorem ltOp_ok_boolean :
    ∀ lv lt rv rt σ v t σ2, ltOp lv lt rv rt σ = .ok v t σ2 → t = .Boolean := by
  intro lv lt rv rt σ v t σ2 h
  simp only [ltOp] at h
  split at h
  · simp at h
  · split at h <;> (cases h; rfl)

theorem lteOp_ok_boolean :
    ∀ lv lt rv rt σ v t σ2, lteOp lv lt rv rt σ = .ok v t σ2 → t = .Boolean := by
  intro lv lt rv rt σ v t σ2 h
  simp only [lteOp] at h
  split at h
  · simp at h
  · split at h <;> (cases h; rfl)

theorem gtOp_ok_boolean :
    ∀ lv lt rv rt σ v t σ2, gtOp lv lt rv rt σ = .ok v t σ2 → t = .Boolean := by
  intro lv lt rv rt σ v t σ2 h
  simp only [gtOp] at h
  split at h
  · simp at h
  · split at h <;> (cases h; rfl)

theorem gteOp_ok_boolean :
    ∀ lv lt rv rt σ v t σ2, gteOp lv lt rv rt σ = .ok v t σ2 → t = .Boolean := by
  intro lv lt rv rt σ v t σ2 h
  simp only [gteOp] at h
  split at h
  · simp at h
  · split at h <;> (cases h; rfl)

theorem eqOp_ok_boolean :
    ∀ lv lt rv rt σ v t σ2, eqOp lv lt rv rt σ = .ok v t σ2 → t = .Boolean := by
  intro lv lt rv rt σ v t σ2 h
  simp only [eqOp] at h
  split at h
  · simp at h
  · split at h <;> (cases h; rfl)

theorem neOp_ok_boolean :
    ∀ lv lt rv rt σ v t σ2, neOp lv lt rv rt σ = .ok v t σ2 → t = .Boolean := by
  intro lv lt rv rt σ v t σ2 h
  simp only [neOp] at h
  split at h
  · simp at h
  · split at h <;> (cases h; rfl)

/-- C3: when both operands of a comparison evaluate to the `Unit` tag,
the result is the fixed boolean — `Lt` false, `Lte` true, `Gt` false,
`Gte` true, `Eq` true, `Ne` false — with the threaded state, regardless
of payloads; and the result tag of every comparison operator, on any
operands whatsoever, is always `Boolean`. -/
theorem unit_comparisons_fixed_and_boolean :
    (∀ (fuel : Nat) (l r : Expr) (s s1 s2 : State) (v1 v2 : Value),
      evaluate fuel l s = .ok v1 .Unit s1 →
      evaluate fuel r s1 = .ok v2 .Unit s2 →
        evaluate (fuel + 1) (.Lt l r) s = .ok (.bool false) .Boolean s2
        ∧ evaluate (fuel + 1) (.Lte l r) s = .ok (.bool true) .Boolean s2
        ∧ evaluate (fuel + 1) (.Gt l r) s = .ok (.bool false) .Boolean s2
        ∧ evaluate (fuel + 1) (.Gte l r) s = .ok (.bool true) .Boolean s2
        ∧ evaluate (fuel + 1) (.Eq l r) s = .ok (.bool true) .Boolean s2
        ∧ evaluate (fuel + 1) (.Ne l r) s = .ok (.bool false) .Boolean s2)
    ∧ (∀ (fuel : Nat) (l r : Expr) (s sf : State) (v : Value) (t : TypeTag),
        (evaluate fuel (.Lt l r) s = .ok v t sf
         ∨ evaluate fuel (.Lte l r) s = .ok v t sf
         ∨ evaluate fuel (.Gt l r) s = .ok v t sf
         ∨ evaluate fuel (.Gte l r) s = .ok v t sf
         ∨ evaluate fuel (.Eq l r) s = .ok v t sf
         ∨ evaluate fuel (.Ne l r) s = .ok v t sf) →
        t = .Boolean) := by
  constructor
  · intro fuel l r s s1 s2 v1 v2 hl hr
    refine ⟨?_, ?_, ?_, ?_, ?_, ?_⟩
    · simp only [evaluate_lt, hl, Outcome.andThen_ok, hr]; rfl
    · simp only [evaluate_lte, hl, Outcome.andThen_ok, hr]; rfl
    · simp only [evaluate_gt, hl, Outcome.andThen_ok, hr]; rfl
    · simp only [evaluate_gte, hl, Outcome.andThen_ok, hr]; rfl
    · simp only [evaluate_eq, hl, Outcome.andThen_ok, hr]; rfl
    · simp only [evaluate_ne, hl, Outcome.andThen_ok, hr]; rfl
  · intro fuel l r s sf v t h
    cases fuel with
    | zero =>
      rcases h with h | h | h | h | h | h <;> exact absurd h (by simp [evaluate_zero])
    | succ g =>
      rcases h with h | h | h | h | h | h
      · rw [evaluate_lt] at h; exact andThen2_ty ltOp_ok_boolean h
      · rw [evaluate_lte] at h; exact andThen2_ty lteOp_ok_boolean h
      · rw [evaluate_gt] at h; exact andThen2_ty gtOp_ok_boolean h
      · rw [evaluate_gte] at h; exact andThen2_ty gteOp_ok_boolean h
      · rw [evaluate_eq] at h; exact andThen2_ty eqOp_ok_boolean h
      · rw [evaluate_ne] at h; exact andThen2_ty neOp_ok_boolean h

/-- C3 witness: comparisons of two unit literals. -/
theorem unit_comparisons_fixed_and_boolean_witness :
    (evaluate 2 (.Lt .Ren .Ren) .empty = .ok (.bool false) .Boolean .empty
     ∧ evaluate 2 (.Lte .Ren .Ren) .empty = .ok (.bool true) .Boolean .empty
     ∧ evaluate 2 (.Gt .Ren .Ren) .empty = .ok (.bool false) .Boolean .empty
     ∧ evaluate 2 (.Gte .Ren .Ren) .empty = .ok (.bool true) .Boolean .empty
     ∧ evaluate 2 (.Eq .Ren .Ren) .empty = .ok (.bool true) .Boolean .empty
     ∧ evaluate 2 (.Ne .Ren .Ren) .empty = .ok (.bool false) .Boolean .empty)
    ∧ TypeTag.Boolean = .Boolean :=
  ⟨unit_comparisons_fixed_and_boolean.1 1 .Ren .Ren .empty .empty .empty
     .none .none rfl rfl,
   unit_comparisons_fixed_and_boolean.2 2 .Ren .Ren .empty .empty
     (.bool true) .Boolean (.inr (.inr (.inr (.inr (.inl (by decide))))))⟩

/-- C4: `And` and `Or` evaluate both operands unconditionally, threading
the left operand's resulting state into the right operand — no
short-circuit, so an error raised by the right operand propagates even
when the left alone determines the result (scenario:
`And(False, Divide(1, 0))` still raises the math error); and unless both
operand tags are `Boolean` (hence equal), a type error is raised. -/
theorem and_or_no_short_circuit :
    (∀ (fuel : Nat) (l r : Expr) (s s1 : State) (v1 : Value) (t1 : TypeTag)
        (er : InterpError),
      evaluate fuel l s = .ok v1 t1 s1 →
      evaluate fuel r s1 = .err er →
      evaluate (fuel + 1) (.And l r) s = .err er
      ∧ evaluate (fuel + 1) (.Or l r) s = .err er)
    ∧ (evaluate 3 (.And (.BooleanLiteral false) (.Divide (.IntLiteral 1) (.IntLiteral 0)))
        .empty = .err (.MathKind "Division by Zero Error"))
    ∧ (∀ (fuel : Nat) (l r : Expr) (s s1 s2 : State) (v1 v2 : Value) (t1 t2 : TypeTag),
      evaluate fuel l s = .ok v1 t1 s1 →
      evaluate fuel r s1 = .ok v2 t2 s2 →
      ¬(t1 = .Boolean ∧ t2 = .Boolean) →
      (∃ m, evaluate (fuel + 1) (.And l r) s = .err (.TypeKind m))
      ∧ (∃ m, evaluate (fuel + 1) (.Or l r) s = .err (.TypeKind m)))
    ∧ (∀ (fuel : Nat) (l r : Expr) (s s1 s2 : State) (v1 v2 : Value),
      evaluate fuel l s = .ok v1 .Boolean s1 →
      evaluate fuel r s1 = .ok v2 .Boolean s2 →
      evaluate (fuel + 1) (.And l r) s = .ok (pyAnd v1 v2) .Boolean s2
      ∧ evaluate (fuel + 1) (.Or l r) s = .ok (pyOr v1 v2) .Boolean s2) := by
  refine ⟨?_, by decide, ?_, ?_⟩
  · intro fuel l r s s1 v1 t1 er h1 h2
    constructor
    · simp only [evaluate_and, h1, Outcome.andThen_ok, h2]; rfl
    · simp only [evaluate_or, h1, Outcome.andThen_ok, h2]; rfl
  · intro fuel l r s s1 s2 v1 v2 t1 t2 h1 h2 hnb
    simp only [evaluate_and, evaluate_or, h1, Outcome.andThen_ok, h2]
    by_cases ht : t1 = t2
    · subst ht
      cases t1 with
      | Boolean => exact absurd ⟨rfl, rfl⟩ hnb
      | Unit => exact ⟨⟨_, rfl⟩, ⟨_, rfl⟩⟩
      | Integer => exact ⟨⟨_, rfl⟩, ⟨_, rfl⟩⟩
      | FloatingPoint => exact ⟨⟨_, rfl⟩, ⟨_, rfl⟩⟩
      | String => exact ⟨⟨_, rfl⟩, ⟨_, rfl⟩⟩
    · exact ⟨⟨"Mismatched types for And", by simp [andOp, ht]⟩,
        ⟨"Mismatched types for Or", by simp [orOp, ht]⟩⟩
  · intro fuel l r s s1 s2 v1 v2 h1 h2
    constructor
    · simp only [evaluate_and, h1, Outcome.andThen_ok, h2]; rfl
    · simp only [evaluate_or, h1, Outcome.andThen_ok, h2]; rfl

/-- C4 witness: the right operand's division-by-zero error propagates
through `And` although the left operand is already `False`, and a
`Boolean`/`Integer` operand pair is a type error. -/
theorem and_or_no_short_circuit_witness :
    (evaluate 3 (.And (.BooleanLiteral false) (.Divide (.IntLiteral 1) (.IntLiteral 0)))
        .empty = .err (.MathKind "Division by Zero Error"))
    ∧ (∃ m, evaluate 2 (.And (.BooleanLiteral true) (.IntLiteral 1)) .empty
        = .err (.TypeKind m)) :=
  ⟨(and_or_no_short_circuit.1 2 (.BooleanLiteral false)
      (.Divide (.IntLiteral 1) (.IntLiteral 0)) .empty .empty (.bool false) .Boolean
      (.MathKind "Division by Zero Error") rfl (by decide)).1,
   (and_or_no_short_circuit.2.2.1 1 (.BooleanLiteral true) (.IntLiteral 1)
      .empty .empty .empty (.bool true) (.int 1) .Boolean .Integer rfl rfl
      (by decide)).1⟩

/-- C5: `Assign(var, valueExpr)` first evaluates the value expression
against the incoming state; a prior binding of a different type raises
the type-mismatch error, otherwise (same type or fresh name) the result
is `(v, t)` with a new head binding of the name that shadows any older
binding. -/
theorem assign_rebind_type_discipline (fuel : Nat) (x : String) (e : Expr)
    (s s1 : State) (v : Value) (t : TypeTag)
    (h : evaluate fuel e s = .ok v t s1) :
    (∀ pv pt, s1.get_value x = some (pv, pt) → t ≠ pt →
        evaluate (fuel + 1) (.Assign x e) s
          = .err (.TypeKind "Mismatched types for Assignment"))
    ∧ (∀ pv, s1.get_value x = some (pv, t) →
        evaluate (fuel + 1) (.Assign x e) s = .ok v t (s1.set_value x v t))
    ∧ (s1.get_value x = Option.none →
        evaluate (fuel + 1) (.Assign x e) s = .ok v t (s1.set_value x v t))
    ∧ (s1.set_value x v t).get_value x = some (v, t) := by
  refine ⟨?_, ?_, ?_, ?_⟩
  · intro pv pt hpv hne
    simp only [evaluate_assign, h, Outcome.andThen_ok, assignOp, hpv]
    rw [if_pos hne]
  · intro pv hpv
    simp only [evaluate_assign, h, Outcome.andThen_ok, assignOp, hpv]
    simp
  · intro hnone
    simp only [evaluate_assign, h, Outcome.andThen_ok, assignOp, hnone]
  · simp [State.set_value, State.get_value]

/-- C5 witness: rebinding `x` from `Boolean` to `Integer` raises the type
error; a first assignment to a fresh name succeeds and the new binding
shadows. -/
theorem assign_rebind_type_discipline_witness :
    (evaluate 2 (.Assign "x" (.IntLiteral 5))
        (.node "x" (.bool true) .Boolean .empty)
      = .err (.TypeKind "Mismatched types for Assignment"))
    ∧ (evaluate 2 (.Assign "x" (.IntLiteral 5)) .empty
        = .ok (.int 5) .Integer (State.empty.set_value "x" (.int 5) .Integer))
    ∧ (State.empty.set_value "x" (.int 5) .Integer).get_value "x"
        = some (.int 5, .Integer) :=
  ⟨(assign_rebind_type_discipline 1 "x" (.IntLiteral 5)
      (.node "x" (.bool true) .Boolean .empty)
      (.node "x" (.bool true) .Boolean .empty) (.int 5) .Integer rfl).1
      (.bool true) .Boolean (by decide) (by decide),
   (assign_rebind_type_discipline 1 "x" (.IntLiteral 5) .empty .empty
      (.int 5) .Integer rfl).2.2.1 (by decide),
   (assign_rebind_type_discipline 1 "x" (.IntLiteral 5) .empty .empty
      (.int 5) .Integer rfl).2.2.2⟩

/-- C6: `Variable(name)` resolves through the chain from the most recent
binding toward the empty terminator (most recent wins); on a hit it
returns the bound value and tag with the state unchanged, and when the
terminator is reached without a match it raises the syntax
(read-before-assignment) error. -/
theorem variable_lookup_shadowing (fuel : Nat) (x : String) (s : State) :
    (∀ v t, s.get_value x = some (v, t) →
        evaluate (fuel + 1) (.Variable x) s = .ok v t s)
    ∧ (s.get_value x = Option.none →
        evaluate (fuel + 1) (.Variable x) s
          = .err (.SyntaxKind ("Cannot read from " ++ x ++ " before assignment.")))
    ∧ (∀ n v t rest, (State.node n v t rest).get_value x
          = if x = n then some (v, t) else rest.get_value x)
    ∧ State.empty.get_value x = Option.none := by
  refine ⟨?_, ?_, ?_, rfl⟩
  · intro v t hv
    simp only [evaluate_variable, hv]
  · intro hn
    simp only [evaluate_variable, hn]
  · intro n v t rest
    rfl

/-- C6 witness: a shadowed lookup returns the most recent binding and an
unbound name raises the read-before-assignment error. -/
theorem variable_lookup_shadowing_witness :
    (evaluate 1 (.Variable "x")
        (.node "x" (.int 2) .Integer (.node "x" (.str "a") .String .empty))
      = .ok (.int 2) .Integer
          (.node "x" (.int 2) .Integer (.node "x" (.str "a") .String .empty)))
    ∧ (evaluate 1 (.Variable "z") .empty
        = .err (.SyntaxKind "Cannot read from z before assignment.")) :=
  ⟨(variable_lookup_shadowing 0 "x"
      (.node "x" (.int 2) .Integer (.node "x" (.str "a") .String .empty))).1
      (.int 2) .Integer (by decide),
   (variable_lookup_shadowing 0 "z" .empty).2.1 (by decide)⟩

/-- C7: `Sequence` and `Program` evaluate left to right, threading each
sub-expression's resulting state into the next; the empty list yields
`(None, Unit)` with the state unchanged, the last sub-expression's
result is returned with the final threaded state (no save or restore of
the state at sequence boundaries), and `Program` behaves exactly like
`Sequence`. -/
theorem sequence_fold_threading :
    (∀ (fuel : Nat) (s : State),
      evaluate (fuel + 1) (.Sequence []) s = .ok .none .Unit s
      ∧ evaluate (fuel + 1) (.Program []) s = .ok .none .Unit s)
    ∧ (∀ (fuel : Nat) (e : Expr) (rest : List Expr) (s s1 : State) (v : Value)
        (t : TypeTag),
      evaluate fuel e s = .ok v t s1 →
      evaluate (fuel + 1) (.Sequence [e]) s = .ok v t s1
      ∧ (rest ≠ [] →
         evaluate (fuel + 1) (.Sequence (e :: rest)) s
           = evaluate (fuel + 1) (.Sequence rest) s1))
    ∧ (∀ (fuel : Nat) (exprs : List Expr) (s : State),
        evaluate fuel (.Program exprs) s = evaluate fuel (.Sequence exprs) s) := by
  refine ⟨fun fuel s => ⟨rfl, rfl⟩, ?_, ?_⟩
  · intro fuel e rest s s1 v t h
    constructor
    · simp only [evaluate_sequence, evalSeqAux, h, Outcome.andThen_ok]
    · intro hne
      cases rest with
      | nil => exact absurd rfl hne
      | cons r2 rs =>
        simp only [evaluate_sequence, evalSeqAux, h, Outcome.andThen_ok]
  · intro fuel exprs s
    cases fuel with
    | zero => rfl
    | succ g => rw [evaluate_program, evaluate_sequence]

/-- C7 witness: a binding created by the first sub-expression is visible
to the rest of the sequence and survives it. -/
theorem sequence_fold_threading_witness :
    (evaluate 3 (.Sequence [.Assign "x" (.IntLiteral 5), .Variable "x"]) .empty
      = evaluate 3 (.Sequence [.Variable "x"]) (.node "x" (.int 5) .Integer .empty))
    ∧ (evaluate 3 (.Sequence [.Assign "x" (.IntLiteral 5)]) .empty
      = .ok (.int 5) .Integer (.node "x" (.int 5) .Integer .empty)) :=
  ⟨(sequence_fold_threading.2.1 2 (.Assign "x" (.IntLiteral 5)) [.Variable "x"]
      .empty (.node "x" (.int 5) .Integer .empty) (.int 5) .Integer
      (by decide)).2 (List.cons_ne_nil _ _),
   (sequence_fold_threading.2.1 2 (.Assign "x" (.IntLiteral 5)) []
      .empty (.node "x" (.int 5) .Integer .empty) (.int 5) .Integer
      (by decide)).1⟩

/-! ### Floor division: `Int.fdiv` is rational floor division -/

theorem fdiv_neg_neg : ∀ (a b : Int), Int.fdiv (-a) (-b) = Int.fdiv a b
  | .ofNat 0, _b => by
      show Int.fdiv 0 _ = Int.fdiv 0 _
      simp [Int.zero_fdiv]
  | .ofNat (m + 1), .ofNat 0 => by
      show Int.fdiv (Int.negSucc m) 0 = Int.fdiv (Int.ofNat (m + 1)) (Int.ofNat 0)
      rw [show Int.ofNat 0 = 0 from rfl, Int.fdiv_zero, Int.fdiv_zero]
  | .ofNat (m + 1), .ofNat (n + 1) => rfl
  | .ofNat (m + 1), .negSucc n => rfl
  | .negSucc m, .ofNat 0 => by
      show Int.fdiv (Int.ofNat (m + 1)) 0 = Int.fdiv (Int.negSucc m) (Int.ofNat 0)
      rw [show Int.ofNat 0 = 0 from rfl, Int.fdiv_zero, Int.fdiv_zero]
  | .negSucc m, .ofNat (n + 1) => rfl
  | .negSucc m, .negSucc n => rfl

theorem floor_intCast_div_eq_ediv (n d : Int) (hd : 0 ≤ d) :
    ⌊(n : ℚ) / (d : ℚ)⌋ = n / d := by
  obtain ⟨k, rfl⟩ := Int.eq_ofNat_of_zero_le hd
  exact_mod_cast Rat.floor_intCast_div_natCast n k

/-- `Int.fdiv` (the evaluator's integer division) is floor division:
it equals the floor of the exact rational quotient. -/
theorem fdiv_eq_floor_rat_div (a b : Int) (hb : b ≠ 0) :
    Int.fdiv a b = ⌊(a : ℚ) / (b : ℚ)⌋ := by
  rcases le_or_lt 0 b with hpos | hneg
  · rw [Int.fdiv_eq_ediv a hpos, floor_intCast_div_eq_ediv a b hpos]
  · have h2 : (0 : Int) ≤ -b := by omega
    calc Int.fdiv a b = Int.fdiv (-a) (-b) := (fdiv_neg_neg a b).symm
      _ = (-a) / (-b) := Int.fdiv_eq_ediv _ h2
      _ = ⌊((-a : Int) : ℚ) / ((-b : Int) : ℚ)⌋ :=
          (floor_intCast_div_eq_ediv _ _ h2).symm
      _ = ⌊(a : ℚ) / (b : ℚ)⌋ := by push_cast; rw [neg_div_neg_eq]

/-- C8: for every pair of integer literals with a non-zero divisor,
`Divide` computes floor division (rounding toward negative infinity)
with the tag `Integer`, while a `FloatingPoint` division computes true
(exact field) division. -/
theorem divide_integer_floors_float_true :
    (∀ (g : Nat) (a b : Int) (s : State), b ≠ 0 →
      evaluate (g + 2) (.Divide (.IntLiteral a) (.IntLiteral b)) s
        = .ok (.int (Int.fdiv a b)) .Integer s)
    ∧ (∀ (a b : Int), b ≠ 0 → Int.fdiv a b = ⌊(a : ℚ) / (b : ℚ)⌋)
    ∧ (∀ (g : Nat) (p q : ℚ) (s : State), q ≠ 0 →
      evaluate (g + 2) (.Divide (.FloatingPointLiteral p) (.FloatingPointLiteral q)) s
        = .ok (.float (p / q)) .FloatingPoint s) := by
  refine ⟨?_, fdiv_eq_floor_rat_div, ?_⟩
  · intro g a b s hb
    show evaluate (g + 1 + 1) _ _ = _
    simp only [evaluate_divide, evaluate_int, Outcome.andThen_ok]
    have hz : pyEq (.int b) (.int 0) = false := by
      simp [pyEq, asNum, hb]
    simp only [divideOp, hz]
    rfl
  · intro g p q s hq
    show evaluate (g + 1 + 1) _ _ = _
    simp only [evaluate_divide, evaluate_float, Outcome.andThen_ok]
    have hz : pyEq (.float q) (.int 0) = false := by
      simp [pyEq, asNum, hq]
    simp only [divideOp, hz]
    rfl

/-- C8 witness: `Divide(-7, 2)` yields `-4`; `Divide(1.0, 2.0)` yields
the exact quotient `0.5`. -/
theorem divide_integer_floors_float_true_witness :
    (evaluate 2 (.Divide (.IntLiteral (-7)) (.IntLiteral 2)) .empty
      = .ok (.int (Int.fdiv (-7) 2)) .Integer .empty)
    ∧ Int.fdiv (-7) 2 = -4
    ∧ Int.fdiv (-7) 2 = ⌊((-7 : Int) : ℚ) / ((2 : Int) : ℚ)⌋
    ∧ (evaluate 2 (.Divide (.FloatingPointLiteral 1) (.FloatingPointLiteral 2)) .empty
      = .ok (.float (1 / 2)) .FloatingPoint .empty) :=
  ⟨divide_integer_floors_float_true.1 0 (-7) 2 .empty (by decide),
   by decide,
   divide_integer_floors_float_true.2.1 (-7) 2 (by decide),
   divide_integer_floors_float_true.2.2 0 1 2 .empty (by norm_num)⟩

/-! ### The while loop after its first, type-checked condition -/

theorem whileLoopAux_step (ev : Expr → State → Outcome) (cond body : Expr)
    (m : Nat) (cv : Value) (s : State) (h : truthy cv = true) :
    whileLoopAux ev cond body (m + 1) cv s
      = (ev body s).andThen fun _ _ s2 =>
        (ev cond s2).andThen fun cv2 _ s3 =>
        whileLoopAux ev cond body m cv2 s3 := by
  conv_lhs => rw [whileLoopAux]
  rw [h]
  rfl

theorem whileLoopAux_exit (ev : Expr → State → Outcome) (cond body : Expr)
    (n : Nat) (cv : Value) (s : State) (h : truthy cv = false) :
    whileLoopAux ev cond body n cv s = .ok (.bool false) .Boolean s := by
  cases n with
  | zero =>
    conv_lhs => rw [whileLoopAux]
    rw [h]
    rfl
  | succ m =>
    conv_lhs => rw [whileLoopAux]
    rw [h]
    rfl

/-- C9: only the first evaluation of a `While` condition is type-checked
against `Boolean`: after one iteration the loop continues directly on
the re-evaluated condition value — whatever its tag `ct2` is — with no
type check, and (second conjunct) any falsy condition value makes the
loop exit normally, so continuation is decided by truthiness alone. -/
theorem while_recheck_is_not_typechecked (g : Nat) (cond body : Expr)
    (s s1 s2 s3 : State) (cv vb cv2 : Value) (tb ct2 : TypeTag)
    (h0 : evaluate (g + 1) cond s = .ok cv .Boolean s1)
    (h1 : truthy cv = true)
    (h2 : evaluate (g + 1) body s1 = .ok vb tb s2)
    (h3 : evaluate (g + 1) cond s2 = .ok cv2 ct2 s3) :
    evaluate (g + 2) (.While cond body) s
      = whileLoopAux (fun e2 σ => evaluate (g + 1) e2 σ) cond body g cv2 s3
    ∧ (∀ (ev : Expr → State → Outcome) (c b : Expr) (n : Nat) (v : Value) (σ : State),
        truthy v = false →
        whileLoopAux ev c b n v σ = .ok (.bool false) .Boolean σ) := by
  constructor
  · show evaluate (g + 1 + 1) _ _ = _
    simp only [evaluate_while, h0, Outcome.andThen_ok]
    rw [if_neg (by simp)]
    rw [whileLoopAux_step _ _ _ _ _ _ h1]
    simp only [h2, Outcome.andThen_ok, h3]
  · intro ev c b n v σ hv
    exact whileLoopAux_exit ev c b n v σ hv

/-- C9 witness: a loop whose condition types to `Boolean` on the first
evaluation and to `Integer` (value 5) after the iteration: no type
error; and a falsy `Integer` condition value exits the loop. -/
theorem while_recheck_is_not_typechecked_witness :
    (evaluate 7
        (.While (.If (.Eq (.Variable "i") (.IntLiteral 0))
                  (.BooleanLiteral true) (.IntLiteral 5))
          (.Assign "i" (.IntLiteral 1)))
        (.node "i" (.int 0) .Integer .empty)
      = whileLoopAux (fun e2 σ => evaluate 6 e2 σ)
          (.If (.Eq (.Variable "i") (.IntLiteral 0))
            (.BooleanLiteral true) (.IntLiteral 5))
          (.Assign "i" (.IntLiteral 1)) 5 (.int 5)
          (.node "i" (.int 1) .Integer (.node "i" (.int 0) .Integer .empty)))
    ∧ (whileLoopAux (fun e2 σ => evaluate 6 e2 σ)
          (.If (.Eq (.Variable "i") (.IntLiteral 0))
            (.BooleanLiteral true) (.IntLiteral 5))
          (.Assign "i" (.IntLiteral 1)) 5 (.int 0)
          (.node "i" (.int 1) .Integer (.node "i" (.int 0) .Integer .empty))
        = .ok (.bool false) .Boolean
            (.node "i" (.int 1) .Integer (.node "i" (.int 0) .Integer .empty))) :=
  ⟨(while_recheck_is_not_typechecked 5
      (.If (.Eq (.Variable "i") (.IntLiteral 0))
        (.BooleanLiteral true) (.IntLiteral 5))
      (.Assign "i" (.IntLiteral 1))
      (.node "i" (.int 0) .Integer .empty)
      (.node "i" (.int 0) .Integer .empty)
      (.node "i" (.int 1) .Integer (.node "i" (.int 0) .Integer .empty))
      (.node "i" (.int 1) .Integer (.node "i" (.int 0) .Integer .empty))
      (.bool true) (.int 1) (.int 5) .Integer .Integer
      (by decide) rfl (by decide) (by decide)).1,
   (while_recheck_is_not_typechecked 5
      (.If (.Eq (.Variable "i") (.IntLiteral 0))
        (.BooleanLiteral true) (.IntLiteral 5))
      (.Assign "i" (.IntLiteral 1))
      (.node "i" (.int 0) .Integer .empty)
      (.node "i" (.int 0) .Integer .empty)
      (.node "i" (.int 1) .Integer (.node "i" (.int 0) .Integer .empty))
      (.node "i" (.int 1) .Integer (.node "i" (.int 0) .Integer .empty))
      (.bool true) (.int 1) (.int 5) .Integer .Integer
      (by decide) rfl (by decide) (by decide)).2
     (fun e2 σ => evaluate 6 e2 σ)
     (.If (.Eq (.Variable "i") (.IntLiteral 0))
       (.BooleanLiteral true) (.IntLiteral 5))
     (.Assign "i" (.IntLiteral 1)) 5 (.int 0)
     (.node "i" (.int 1) .Integer (.node "i" (.int 0) .Integer .empty)) rfl⟩
